import Mathlib

/-!
Verification development for the PostgreSQL MCP gateway
(`src/security.py`, `src/database.py`, `src/server.py`, `src/config.py`).

Python strings are embedded as `List Char` (the ASCII fragment, which covers
every transformation the code performs: `upper`, `strip`, substring scans).
Stateful code is embedded by explicit state passing; the outcomes of the
external collaborators (AWS Secrets Manager, psycopg connections, cursor
execution) are supplied by an environment record, and every externally
observable action (secrets call, sleep, connection attempt, cursor execute,
rollback) is recorded in an event trace.  Python exceptions are values of
`PyExc` carried in `Except`.
-/

/-- Python `str` values, embedded as lists of characters. -/
abbrev PyStr := List Char

/-- Shorthand turning a Lean string literal into the embedded representation. -/
def pstr (s : String) : PyStr := s.data

/-- The characters stripped by Python `str.strip()` (ASCII whitespace). -/
def isSpaceChar (c : Char) : Bool :=
  decide (c = ' ') || decide (c = '\t') || decide (c = '\n') ||
  decide (c = '\r') || decide (c = '\x0b') || decide (c = '\x0c')

/-- Python `str.upper()` on the ASCII fragment: map lowercase letters up. -/
def upChar (c : Char) : Char :=
  if 'a' ≤ c ∧ c ≤ 'z' then Char.ofNat (c.toNat - 32) else c

/-- Does `needle` occur as a prefix of `hay`? -/
def startsWith : PyStr → PyStr → Bool
  | [], _ => true
  | _ :: _, [] => false
  | c :: cs, d :: ds => if c = d then startsWith cs ds else false

/-- Does `needle` occur as a contiguous substring of `hay`?  (Python `in`.) -/
def substrB (needle hay : PyStr) : Bool :=
  (List.range (hay.length + 1)).any fun i => startsWith needle (hay.drop i)

/-- Python `str.strip()`: drop ASCII whitespace from both ends. -/
def pyStrip (s : PyStr) : PyStr :=
  ((s.dropWhile isSpaceChar).reverse.dropWhile isSpaceChar).reverse

/-- Python `str.rstrip(';')`: drop semicolons from the right end. -/
def rstripSemi (s : PyStr) : PyStr :=
  (s.reverse.dropWhile (fun c => decide (c = ';'))).reverse

/-- Python `str.count(c)` for a single-character needle. -/
def countChar (c : Char) (s : PyStr) : Nat :=
  (s.filter (fun d => decide (d = c))).length

/-- `QueryValidator.BLOCKED_KEYWORDS` (src/security.py, lines 22-26), in the
source's literal order. -/
def BLOCKED_KEYWORDS : List PyStr :=
  [pstr "INSERT", pstr "UPDATE", pstr "DELETE", pstr "DROP", pstr "CREATE",
   pstr "ALTER", pstr "TRUNCATE", pstr "GRANT", pstr "REVOKE", pstr "EXEC",
   pstr "EXECUTE", pstr "CALL", pstr "PROCEDURE", pstr "FUNCTION",
   pstr "TRIGGER", pstr "SCHEMA", pstr "DATABASE"]

/-- The mutating keywords of the first injection pattern
`;\s*(DROP|DELETE|UPDATE|INSERT|CREATE|ALTER|TRUNCATE)`. -/
def MUTATING_KEYWORDS : List PyStr :=
  [pstr "DROP", pstr "DELETE", pstr "UPDATE", pstr "INSERT", pstr "CREATE",
   pstr "ALTER", pstr "TRUNCATE"]

/-- Case-insensitive prefix test: `kw` (given uppercase) begins `s`. -/
def startsWithCI (kw s : PyStr) : Bool := startsWith kw (s.map upChar)

/-- Pattern `;\s*(DROP|DELETE|UPDATE|INSERT|CREATE|ALTER|TRUNCATE)`
(IGNORECASE): a semicolon, optional whitespace, then a mutating keyword. -/
def patSemiMutating (q : PyStr) : Bool :=
  (List.range q.length).any fun i =>
    match q.drop i with
    | [] => false
    | c :: rest =>
      decide (c = ';') &&
        MUTATING_KEYWORDS.any fun kw => startsWithCI kw (rest.dropWhile isSpaceChar)

/-- Pattern `--`: SQL line comment marker anywhere. -/
def patLineComment (q : PyStr) : Bool := substrB (pstr "--") q

/-- Pattern `/\*.*\*/`: block comment opener and closer with no newline
between (Python `.` does not match a newline). -/
def patBlockComment (q : PyStr) : Bool :=
  (List.range q.length).any fun i =>
    startsWith (pstr "/*") (q.drop i) &&
      substrB (pstr "*/") ((q.drop (i + 2)).takeWhile (fun c => decide (c ≠ '\n')))

/-- Pattern `UNION\s+SELECT` (IGNORECASE): UNION, at least one whitespace
character, then SELECT. -/
def patUnionSelect (q : PyStr) : Bool :=
  (List.range q.length).any fun i =>
    startsWithCI (pstr "UNION") (q.drop i) &&
      (match (q.drop i).drop 5 with
       | [] => false
       | c :: _ =>
         isSpaceChar c &&
           startsWithCI (pstr "SELECT") (((q.drop i).drop 5).dropWhile isSpaceChar))

/-- The single-quote character, `'`. -/
def quoteChar : Char := Char.ofNat 39

/-- Pattern `'\s*OR\s*'` (IGNORECASE): quote, whitespace, OR, whitespace,
quote. -/
def patQuoteOrQuote (q : PyStr) : Bool :=
  (List.range q.length).any fun i =>
    match q.drop i with
    | [] => false
    | c :: rest =>
      decide (c = quoteChar) &&
        (let r1 := rest.dropWhile isSpaceChar
         startsWithCI (pstr "OR") r1 &&
           (match (r1.drop 2).dropWhile isSpaceChar with
            | [] => false
            | d :: _ => decide (d = quoteChar)))

/-- Pattern `'\s*;\s*`: quote, whitespace, semicolon (the trailing `\s*`
matches the empty string). -/
def patQuoteSemi (q : PyStr) : Bool :=
  (List.range q.length).any fun i =>
    match q.drop i with
    | [] => false
    | c :: rest =>
      decide (c = quoteChar) &&
        (match rest.dropWhile isSpaceChar with
         | [] => false
         | d :: _ => decide (d = ';'))

/-- Pattern `xp_cmdshell` (IGNORECASE). -/
def patXpCmdshell (q : PyStr) : Bool := substrB (pstr "XP_CMDSHELL") (q.map upChar)

/-- Pattern `sp_executesql` (IGNORECASE). -/
def patSpExecutesql (q : PyStr) : Bool := substrB (pstr "SP_EXECUTESQL") (q.map upChar)

/-- `QueryValidator.INJECTION_PATTERNS` (src/security.py, lines 29-38):
true iff any of the eight patterns matches the raw query. -/
def matchesInjectionPattern (q : PyStr) : Bool :=
  patSemiMutating q || patLineComment q || patBlockComment q ||
  patUnionSelect q || patQuoteOrQuote q || patQuoteSemi q ||
  patXpCmdshell q || patSpExecutesql q

/-- `QueryValidator.validate_query` (src/security.py, lines 40-69).
Returns the `(is_valid, error_message)` pair. -/
def validate_query (query : PyStr) : Bool × PyStr :=
  if query = [] ∨ pyStrip query = [] then (false, pstr "Empty query not allowed")
  else
    let query_upper := pyStrip (query.map upChar)
    if startsWith (pstr "SELECT") query_upper = false then
      (false, pstr "Only SELECT queries are allowed")
    else
      match BLOCKED_KEYWORDS.find? (fun kw => substrB kw query_upper) with
      | some kw =>
        (false, pstr "Blocked keyword \x27" ++ kw ++ pstr "\x27 found in query")
      | none =>
        if matchesInjectionPattern query then
          (false, pstr "Potentially malicious pattern detected")
        else if countChar ';' query > 1 then
          (false, pstr "Multiple statements not allowed")
        else (true, [])

/-- First character class of the table-name pattern: `[a-zA-Z_]`. -/
def isWordStart (c : Char) : Bool := c.isAlpha || decide (c = '_')

/-- Body character class of the table-name pattern: `[a-zA-Z0-9_]`. -/
def isWordChar (c : Char) : Bool := c.isAlpha || c.isDigit || decide (c = '_')

/-- Python `re.match(r'^[a-zA-Z_][a-zA-Z0-9_]*$', s)` viewed as a boolean:
the anchored match succeeds iff the word-character run from the start covers
the whole string, or covers all but one final newline (Python `$` also
matches just before a trailing newline). -/
def pyMatchTableName : PyStr → Bool
  | [] => false
  | c :: rest =>
    isWordStart c &&
      (let rem := rest.dropWhile isWordChar
       decide (rem = [] ∨ rem = ['\n']))

/-- `QueryValidator.sanitize_table_name` (src/security.py, lines 71-88). -/
def sanitize_table_name (table_name : PyStr) : Bool × PyStr :=
  if table_name = [] then (false, pstr "Table name cannot be empty")
  else if pyMatchTableName table_name = false then
    (false, pstr "Invalid table name format")
  else if table_name.length > 63 then (false, pstr "Table name too long")
  else (true, [])

/-- Modelled from the spec: the strict reading of the table-name rule,
"must start with a letter or underscore, then alphanumeric/underscore only"
over the whole name (no trailing-newline allowance). -/
def specTableNamePattern : PyStr → Bool
  | [] => false
  | c :: rest => isWordStart c && rest.all isWordChar

/-- Database credentials parsed from the secret JSON (src/database.py:
`host`, optional `port`, `dbname`, `username`, `password`). -/
structure Creds where
  host : PyStr
  port : Option Nat
  dbname : PyStr
  username : PyStr
  password : PyStr
deriving DecidableEq

/-- Python exceptions that cross the layers of the program. -/
inductive PyExc where
  | clientError (msg : PyStr)
  | psycopgErr (msg : PyStr)
  | valueError (msg : PyStr)
  | keyError (msg : PyStr)
  | exception (msg : PyStr)
  | other (msg : PyStr)
deriving DecidableEq

/-- Python `str(e)` for the exceptions above (`KeyError` reprs its key in
quotes, the rest render their message). -/
def excStr : PyExc → PyStr
  | .clientError m => m
  | .psycopgErr m => m
  | .valueError m => m
  | .keyError m => quoteChar :: m ++ [quoteChar]
  | .exception m => m
  | .other m => m

/-- SQL values as they appear in result rows. -/
inductive Val where
  | int (n : Int)
  | str (s : PyStr)
  | null
deriving DecidableEq

/-- Observable external actions of the database layer. -/
inductive Event where
  | secretsCall
  | sleep (n : Nat)
  | connectCall
  | execQueryEntry (query : PyStr) (limit : Int)
  | cursorExec (query : PyStr) (params : Option (List Val))
  | rollback
deriving DecidableEq

/-- The sleep durations occurring in an event trace, in order. -/
def sleepsOf (evs : List Event) : List Nat :=
  evs.filterMap fun e => match e with | .sleep n => some n | _ => none

/-- Outcomes of the external collaborators: per-attempt secrets fetches,
per-attempt connection attempts, and cursor execution results
(column names and rows). -/
structure DBEnv where
  secretOutcome : Nat → Except PyStr Creds
  connectOutcome : Creds → Nat → Except PyStr Unit
  execOutcome : PyStr → Option (List Val) → Except PyStr (List PyStr × List (List Val))

/-- Mutable state of `DatabaseManager`: the cached credentials and whether a
live (open) connection exists. -/
structure DBState where
  creds : Option Creds
  connLive : Bool
deriving DecidableEq

/-- The retry loop of `DatabaseManager.get_secret` (src/database.py, lines
33-42).  `fuel` is the number of remaining loop iterations (initially
`max_retries`, so `fuel = max_retries - attempt` throughout); recursion on it
makes the definition structural.  Returns the result (`none` models the
implicit Python `None` when the loop body never runs) and the event trace of
secrets calls and sleeps. -/
def getSecretLoop (outcome : Nat → Except PyStr Creds) (max_retries : Nat) :
    Nat → Nat → Except PyExc (Option Creds) × List Event
  | _, 0 => (.ok none, [])
  | attempt, fuel + 1 =>
    match outcome attempt with
    | .ok c => (.ok (some c), [Event.secretsCall])
    | .error e =>
      if attempt = max_retries - 1 then
        (.error (.exception (pstr "Failed to retrieve secret after " ++
            (toString max_retries).data ++ pstr " attempts: " ++ e)),
         [Event.secretsCall])
      else
        let r := getSecretLoop outcome max_retries (attempt + 1) fuel
        (r.1, Event.secretsCall :: Event.sleep (2 ^ attempt) :: r.2)

/-- `DatabaseManager.get_secret` (src/database.py, lines 28-42): return the
cached credentials when present, otherwise run the retry loop, caching only a
successful result.  Returns (result, new cache, events). -/
def get_secret (cached : Option Creds) (outcome : Nat → Except PyStr Creds)
    (max_retries : Nat) :
    Except PyExc (Option Creds) × Option Creds × List Event :=
  match cached with
  | some c => (.ok (some c), some c, [])
  | none =>
    let r := getSecretLoop outcome max_retries 0 max_retries
    match r.1 with
    | .ok (some c) => (.ok (some c), some c, r.2)
    | other => (other, none, r.2)

/-- The retry loop of `DatabaseManager.get_connection` (src/database.py,
lines 51-66), with the same fuel convention as `getSecretLoop`. -/
def connectLoop (creds : Creds) (env : DBEnv) (max_retries : Nat) :
    Nat → Nat → Except PyExc (Option Unit) × List Event
  | _, 0 => (.ok none, [])
  | attempt, fuel + 1 =>
    match env.connectOutcome creds attempt with
    | .ok _ => (.ok (some ()), [Event.connectCall])
    | .error e =>
      if attempt = max_retries - 1 then
        (.error (.exception (pstr "Failed to connect to database after " ++
            (toString max_retries).data ++ pstr " attempts: " ++ e)),
         [Event.connectCall])
      else
        let r := connectLoop creds env max_retries (attempt + 1) fuel
        (r.1, Event.connectCall :: Event.sleep (2 ^ attempt) :: r.2)

/-- `DatabaseManager.get_connection` (src/database.py, lines 44-66): reuse a
live connection, otherwise fetch credentials and connect with retries.
`.ok none` models the Python `None` fall-through; using `None` credentials
raises at subscripting, modelled as a generic error. -/
def get_connection (st : DBState) (env : DBEnv) (max_retries : Nat) :
    Except PyExc (Option Unit) × DBState × List Event :=
  if st.connLive then (.ok (some ()), st, [])
  else
    match get_secret st.creds env.secretOutcome max_retries with
    | (.ok (some creds), cache, evs) =>
      let r := connectLoop creds env max_retries 0 max_retries
      match r.1 with
      | .ok (some _) => (.ok (some ()), ⟨cache, true⟩, evs ++ r.2)
      | .ok none => (.ok none, ⟨cache, false⟩, evs ++ r.2)
      | .error e => (.error e, ⟨cache, false⟩, evs ++ r.2)
    | (.ok none, cache, evs) =>
      (.error (.other (pstr "TypeError: NoneType is not subscriptable")),
       ⟨cache, false⟩, evs)
    | (.error e, cache, evs) => (.error e, ⟨cache, false⟩, evs)

/-- The query clean-up of `DatabaseManager.execute_query` (src/database.py,
lines 74-76): strip whitespace, strip trailing semicolons, and append a
LIMIT clause when the uppercased text does not already contain `LIMIT`. -/
def prepareQuery (query : PyStr) (limit : Int) : PyStr :=
  let q := rstripSemi (pyStrip query)
  if substrB (pstr "LIMIT") (q.map upChar) = true then q
  else q ++ pstr " LIMIT " ++ (toString limit).data

/-- Python `dict(zip(columns, row))[key]` lookups: the last binding of a
duplicated key wins. -/
def dictGet (row : List (PyStr × Val)) (k : PyStr) : Option Val :=
  ((row.filter (fun p => decide (p.1 = k))).getLast?).map (fun p => p.2)

/-- `DatabaseManager.execute_query` (src/database.py, lines 68-84): get a
connection, clean the query, execute it, and either zip the rows with the
column names or roll back and raise `Query execution failed`. -/
def execute_query (st : DBState) (env : DBEnv) (max_retries : Nat)
    (query : PyStr) (params : Option (List Val)) (limit : Int) :
    Except PyExc (List (List (PyStr × Val))) × DBState × List Event :=
  let entryEv := Event.execQueryEntry query limit
  match get_connection st env max_retries with
  | (.ok (some _), st1, evs) =>
    let q := prepareQuery query limit
    (match env.execOutcome q params with
     | .ok res =>
       (.ok (res.2.map fun row => res.1.zip row), st1,
        entryEv :: evs ++ [Event.cursorExec q params])
     | .error e =>
       (.error (.exception (pstr "Query execution failed: " ++ e)), st1,
        entryEv :: evs ++ [Event.cursorExec q params, Event.rollback]))
  | (.ok none, st1, evs) =>
    (.error (.other (pstr "AttributeError: NoneType has no attribute cursor")),
     st1, entryEv :: evs)
  | (.error e, st1, evs) => (.error e, st1, entryEv :: evs)

/-- The table-listing query literal of `DatabaseManager.get_table_names`
(src/database.py, lines 88-93). -/
def tables_query : PyStr :=
  pstr "\n        SELECT table_name \n        FROM information_schema.tables \n        WHERE table_schema = \x27public\x27 \n        ORDER BY table_name;\n        "

/-- Extract `row[key]` from each row, left to right; a missing key raises
`KeyError` at the first offending row. -/
def extractCol (key : PyStr) : List (List (PyStr × Val)) → Except PyExc (List Val)
  | [] => .ok []
  | row :: rest =>
    match dictGet row key with
    | some v => (extractCol key rest).map (fun vs => v :: vs)
    | none => .error (.keyError key)

/-- `DatabaseManager.get_table_names` (src/database.py, lines 86-95). -/
def get_table_names (st : DBState) (env : DBEnv) (max_retries : Nat) :
    Except PyExc (List Val) × DBState × List Event :=
  match execute_query st env max_retries tables_query none 1000 with
  | (.ok rows, st1, evs) => (extractCol (pstr "table_name") rows, st1, evs)
  | (.error e, st1, evs) => (.error e, st1, evs)

/-- The column-description query literal of `DatabaseManager.describe_table`
(src/database.py, lines 99-109). -/
def columns_query : PyStr :=
  pstr "\n        SELECT \n            column_name,\n            data_type,\n            is_nullable,\n            column_default,\n            character_maximum_length\n        FROM information_schema.columns \n        WHERE table_name = %s AND table_schema = \x27public\x27\n        ORDER BY ordinal_position;\n        "

/-- `DatabaseManager.describe_table` (src/database.py, lines 97-110):
parameterized query against `information_schema.columns`. -/
def describe_table (st : DBState) (env : DBEnv) (max_retries : Nat)
    (table_name : PyStr) :
    Except PyExc (List (List (PyStr × Val))) × DBState × List Event :=
  execute_query st env max_retries columns_query (some [Val.str table_name]) 1000

/-- `DatabaseManager.count_table_records` (src/database.py, lines 112-120):
reject names whose underscore-free residue is not non-empty alphanumeric
(`ValueError`, before any database interaction), otherwise interpolate the
name into a COUNT query and read `result[0]['count']`. -/
def count_table_records (st : DBState) (env : DBEnv) (max_retries : Nat)
    (table_name : PyStr) : Except PyExc Val × DBState × List Event :=
  let residue := table_name.filter (fun c => decide (c ≠ '_'))
  if (decide (residue ≠ []) && residue.all (fun c => c.isAlpha || c.isDigit)) = false then
    (.error (.valueError (pstr "Invalid table name")), st, [])
  else
    let query := pstr "SELECT COUNT(*) as count FROM " ++ table_name ++ [';']
    match execute_query st env max_retries query none 1000 with
    | (.ok rows, st1, evs) =>
      (match rows with
       | [] => (.error (.other (pstr "IndexError: list index out of range")), st1, evs)
       | row :: _ =>
         match dictGet row (pstr "count") with
         | some v => (.ok v, st1, evs)
         | none => (.error (.keyError (pstr "count")), st1, evs))
    | (.error e, st1, evs) => (.error e, st1, evs)

/-- `Config` (src/config.py): the only field the tool handlers read is
`max_query_rows` (default 1000). -/
structure Config where
  max_query_rows : Int
deriving DecidableEq

/-- The argument mapping of a tool call: the three keys the handlers read.
`none` models an absent key. -/
structure ToolArgs where
  query : Option PyStr
  limit : Option Int
  table_name : Option PyStr

/-- Render a value the way a Python f-string does (`str`, not `repr`). -/
def valStr : Val → PyStr
  | .int n => (toString n).data
  | .str s => s
  | .null => pstr "None"

/-- Render a value the way Python `repr` does for simple values (string
escaping is not modelled). -/
def reprVal : Val → PyStr
  | .int n => (toString n).data
  | .str s => quoteChar :: s ++ [quoteChar]
  | .null => pstr "None"

/-- Comma-separated join, as in Python collection reprs. -/
def joinComma : List PyStr → PyStr
  | [] => []
  | [x] => x
  | x :: xs => x ++ pstr ", " ++ joinComma xs

/-- Python `repr` of one row dict. -/
def reprRow (r : List (PyStr × Val)) : PyStr :=
  pstr "\x7b" ++
    joinComma (r.map fun p => quoteChar :: p.1 ++ [quoteChar] ++ pstr ": " ++ reprVal p.2) ++
    pstr "\x7d"

/-- Python `repr` of a list of row dicts. -/
def reprRows (rs : List (List (PyStr × Val))) : PyStr :=
  pstr "[" ++ joinComma (rs.map reprRow) ++ pstr "]"

/-- Python `repr` of a list of values. -/
def reprVals (vs : List Val) : PyStr :=
  pstr "[" ++ joinComma (vs.map reprVal) ++ pstr "]"

/-- `PostgreSQLMCPServer._execute_select` (src/server.py, lines 117-140):
clamp the limit, validate the query, and convert any execution failure into
an error text.  Returns (result texts, new state, events). -/
def execute_select_op (cfg : Config) (st : DBState) (env : DBEnv)
    (max_retries : Nat) (args : ToolArgs) :
    List PyStr × DBState × List Event :=
  let query := args.query.getD []
  let limit := min (args.limit.getD 1000) cfg.max_query_rows
  match validate_query query with
  | (false, msg) => ([pstr "Query validation failed: " ++ msg], st, [])
  | (true, _) =>
    match execute_query st env max_retries query none limit with
    | (.ok results, st1, evs) =>
      ([pstr "Query executed successfully. Returned " ++
          (toString results.length).data ++ pstr " rows:\n" ++ reprRows results],
       st1, evs)
    | (.error e, st1, evs) =>
      ([pstr "Query execution failed: " ++ excStr e], st1, evs)

/-- `PostgreSQLMCPServer._get_tables` (src/server.py, lines 142-154). -/
def get_tables_op (st : DBState) (env : DBEnv) (max_retries : Nat)
    (_args : ToolArgs) : List PyStr × DBState × List Event :=
  match get_table_names st env max_retries with
  | (.ok tables, st1, evs) =>
    ([pstr "Database tables:\n" ++ reprVals tables], st1, evs)
  | (.error e, st1, evs) =>
    ([pstr "Failed to get tables: " ++ excStr e], st1, evs)

/-- `PostgreSQLMCPServer._describe_table` (src/server.py, lines 156-178):
validate the table name first; on rejection return the reason and perform no
database interaction. -/
def describe_table_op (st : DBState) (env : DBEnv) (max_retries : Nat)
    (args : ToolArgs) : List PyStr × DBState × List Event :=
  let table_name := args.table_name.getD []
  match sanitize_table_name table_name with
  | (false, msg) => ([pstr "Table name validation failed: " ++ msg], st, [])
  | (true, _) =>
    match describe_table st env max_retries table_name with
    | (.ok schema, st1, evs) =>
      ([pstr "Schema for table \x27" ++ table_name ++ pstr "\x27:\n" ++
          reprRows schema], st1, evs)
    | (.error e, st1, evs) =>
      ([pstr "Failed to describe table: " ++ excStr e], st1, evs)

/-- `PostgreSQLMCPServer._count_records` (src/server.py, lines 180-202):
same validation gate, then delegate to `count_table_records`. -/
def count_records_op (st : DBState) (env : DBEnv) (max_retries : Nat)
    (args : ToolArgs) : List PyStr × DBState × List Event :=
  let table_name := args.table_name.getD []
  match sanitize_table_name table_name with
  | (false, msg) => ([pstr "Table name validation failed: " ++ msg], st, [])
  | (true, _) =>
    match count_table_records st env max_retries table_name with
    | (.ok c, st1, evs) =>
      ([pstr "Table \x27" ++ table_name ++ pstr "\x27 has " ++ valStr c ++
          pstr " records"], st1, evs)
    | (.error e, st1, evs) =>
      ([pstr "Failed to count records: " ++ excStr e], st1, evs)

/-- The dispatch inside the `try` block of `handle_call_tool`
(src/server.py, lines 99-109): four recognized names, otherwise
`raise ValueError(f"Unknown tool: ...")`, modelled as `Except.error`. -/
def dispatch_tool (cfg : Config) (st : DBState) (env : DBEnv)
    (max_retries : Nat) (name : PyStr) (args : ToolArgs) :
    Except PyExc (List PyStr × DBState × List Event) :=
  if name = pstr "execute_select" then
    .ok (execute_select_op cfg st env max_retries args)
  else if name = pstr "get_tables" then
    .ok (get_tables_op st env max_retries args)
  else if name = pstr "describe_table" then
    .ok (describe_table_op st env max_retries args)
  else if name = pstr "count_records" then
    .ok (count_records_op st env max_retries args)
  else .error (.valueError (pstr "Unknown tool: " ++ name))

/-- `handle_call_tool` (src/server.py, lines 96-115): run the dispatch and
convert any escaping exception into an `Error: ...` text result. -/
def handle_call_tool (cfg : Config) (st : DBState) (env : DBEnv)
    (max_retries : Nat) (name : PyStr) (args : ToolArgs) :
    List PyStr × DBState × List Event :=
  match dispatch_tool cfg st env max_retries name args with
  | .ok r => r
  | .error e => ([pstr "Error: " ++ excStr e], st, [])

/-- Default state for concrete evaluations: nothing cached, no connection. -/
def st0 : DBState := ⟨none, false⟩

/-- Concrete credentials for evaluations. -/
def creds0 : Creds := ⟨[], none, [], [], []⟩

/-- A benign concrete environment: secrets fetch and connection succeed on
the first attempt, every execution returns an empty result set. -/
def env0 : DBEnv :=
  ⟨fun _ => .ok creds0, fun _ _ => .ok (), fun _ _ => .ok ([], [])⟩

/-- Empty argument mapping. -/
def args0 : ToolArgs := ⟨none, none, none⟩

theorem startsWith_iff (n h : PyStr) :
    startsWith n h = true ↔ ∃ t, h = n ++ t := by
  induction n generalizing h with
  | nil => simp [startsWith]
  | cons c cs ih =>
    cases h with
    | nil => simp [startsWith]
    | cons d ds =>
      by_cases hcd : c = d
      · subst hcd
        simp [startsWith, ih]
      · simp [startsWith, hcd, Ne.symm hcd]

theorem substrB_iff (n h : PyStr) :
    substrB n h = true ↔ ∃ a b, h = a ++ (n ++ b) := by
  simp only [substrB, List.any_eq_true, List.mem_range, startsWith_iff]
  constructor
  · rintro ⟨i, _, t, ht⟩
    exact ⟨h.take i, t, by rw [← ht, List.take_append_drop]⟩
  · rintro ⟨a, b, hab⟩
    refine ⟨a.length, ?_, b, ?_⟩
    · subst hab; simp [List.length_append]; omega
    · subst hab; simp

theorem sub_dropWhile (p : Char → Bool) (n : PyStr) (hne : n ≠ [])
    (hnp : ∀ c ∈ n, p c = false) :
    ∀ a b h, h = a ++ (n ++ b) → ∃ a' b', h.dropWhile p = a' ++ (n ++ b') := by
  intro a
  induction a with
  | nil =>
    intro b h hh
    subst hh
    cases n with
    | nil => exact absurd rfl hne
    | cons c cs =>
      have hc : p c = false := hnp c (by simp)
      refine ⟨[], b, ?_⟩
      simp [List.dropWhile_cons, hc]
  | cons x xs ih =>
    intro b h hh
    subst hh
    by_cases hx : p x = true
    · simpa [List.dropWhile_cons, hx] using ih b (xs ++ (n ++ b)) rfl
    · refine ⟨x :: xs, b, ?_⟩
      simp only [Bool.not_eq_true] at hx
      simp [List.dropWhile_cons, hx]

theorem sub_reverse (n a b h : PyStr) (hh : h = a ++ (n ++ b)) :
    ∃ a' b', h.reverse = a' ++ (n.reverse ++ b') := by
  refine ⟨b.reverse, a.reverse, ?_⟩
  subst hh
  simp [List.reverse_append, List.append_assoc]

theorem sub_pyStrip (n h : PyStr) (hne : n ≠ [])
    (hns : ∀ c ∈ n, isSpaceChar c = false) :
    (∃ a b, h = a ++ (n ++ b)) → ∃ a b, pyStrip h = a ++ (n ++ b) := by
  rintro ⟨a, b, hh⟩
  obtain ⟨a1, b1, h1⟩ := sub_dropWhile isSpaceChar n hne hns a b h hh
  obtain ⟨a2, b2, h2⟩ := sub_reverse n a1 b1 _ h1
  have hne' : n.reverse ≠ [] := by simpa using hne
  have hns' : ∀ c ∈ n.reverse, isSpaceChar c = false := by
    intro c hc; exact hns c (List.mem_reverse.mp hc)
  obtain ⟨a3, b3, h3⟩ := sub_dropWhile isSpaceChar n.reverse hne' hns' a2 b2 _ h2
  obtain ⟨a4, b4, h4⟩ := sub_reverse n.reverse a3 b3 _ h3
  rw [List.reverse_reverse] at h4
  exact ⟨a4, b4, h4⟩

theorem blocked_keywords_wf :
    ∀ kw ∈ BLOCKED_KEYWORDS, kw ≠ [] ∧ ∀ c ∈ kw, isSpaceChar c = false := by
  decide

theorem validate_query_accepted_no_keyword (q : PyStr)
    (h : (validate_query q).1 = true) :
    ∀ kw ∈ BLOCKED_KEYWORDS, substrB kw (pyStrip (q.map upChar)) = false := by
  simp only [validate_query] at h
  split at h
  · simp at h
  · split at h
    · simp at h
    · split at h
      · simp at h
      · rename_i heq
        rw [List.find?_eq_none] at heq
        intro kw hkw
        simpa using heq kw hkw

/-- C1: every query accepted by `validate_query` contains no blocked keyword
in its uppercased, stripped text; conversely, any query containing a blocked
keyword as a substring in any case, at any position, is rejected. -/
theorem validate_query_blocks_keywords (q : PyStr) :
    ((validate_query q).1 = true →
      ∀ kw ∈ BLOCKED_KEYWORDS, substrB kw (pyStrip (q.map upChar)) = false)
    ∧ (∀ kw ∈ BLOCKED_KEYWORDS, substrB kw (q.map upChar) = true →
      (validate_query q).1 = false) := by
  constructor
  · exact validate_query_accepted_no_keyword q
  · intro kw hkw hsub
    by_contra hne
    have hacc : (validate_query q).1 = true := by
      cases hv : (validate_query q).1
      · exact absurd hv hne
      · rfl
    have hnone := validate_query_accepted_no_keyword q hacc kw hkw
    obtain ⟨hkne, hksp⟩ := blocked_keywords_wf kw hkw
    have hsub' := (substrB_iff kw (q.map upChar)).mp hsub
    have hstrip := sub_pyStrip kw (q.map upChar) hkne hksp hsub'
    have : substrB kw (pyStrip (q.map upChar)) = true :=
      (substrB_iff kw (pyStrip (q.map upChar))).mpr hstrip
    rw [this] at hnone
    exact Bool.true_eq_false.mp hnone

/-- Witness for C1: a lowercase `drop` anywhere in a SELECT query causes
rejection, and an accepted query indeed contains no blocked keyword. -/
theorem validate_query_blocks_keywords_witness :
    (validate_query (pstr "select drop")).1 = false ∧
    substrB (pstr "DROP") (pyStrip ((pstr "SELECT name FROM users").map upChar)) = false :=
  ⟨(validate_query_blocks_keywords (pstr "select drop")).2 (pstr "DROP")
      (by decide) (by decide),
   (validate_query_blocks_keywords (pstr "SELECT name FROM users")).1
      (by decide) (pstr "DROP") (by decide)⟩

/-- C6: `validate_query` rejects empty and whitespace-only queries with the
empty-query reason, rejects any query whose trimmed uppercased form does not
start with SELECT, and hence every accepted query is non-blank and starts
with SELECT case-insensitively after trimming. -/
theorem validate_query_select_gate (q : PyStr) :
    (pyStrip q = [] → validate_query q = (false, pstr "Empty query not allowed"))
    ∧ (startsWith (pstr "SELECT") (pyStrip (q.map upChar)) = false →
        (validate_query q).1 = false)
    ∧ ((validate_query q).1 = true →
        pyStrip q ≠ [] ∧ startsWith (pstr "SELECT") (pyStrip (q.map upChar)) = true) := by
  refine ⟨?_, ?_, ?_⟩
  · intro h
    simp [validate_query, h]
  · intro h
    simp only [validate_query]
    split
    · rfl
    · simp only [h, if_true]
  · intro h
    simp only [validate_query] at h
    split at h
    · simp at h
    · rename_i hcond
      split at h
      · simp at h
      · rename_i hsw
        refine ⟨fun hh => hcond (Or.inr hh), ?_⟩
        simpa using hsw

/-- Witness for C6: a whitespace-only query is rejected as empty, and a
non-SELECT query is rejected. -/
theorem validate_query_select_gate_witness :
    validate_query (pstr "   ") = (false, pstr "Empty query not allowed") ∧
    (validate_query (pstr "DELETE FROM t")).1 = false :=
  ⟨(validate_query_select_gate (pstr "   ")).1 (by decide),
   (validate_query_select_gate (pstr "DELETE FROM t")).2.1 (by decide)⟩

/-- C9: the multiple-statement rule only rejects more than one semicolon, so
the two-statement text `SELECT 1; SELECT 2` (one semicolon, no blocked
keyword, no injection pattern) is accepted by `validate_query`. -/
theorem two_statement_query_accepted :
    countChar ';' (pstr "SELECT 1; SELECT 2") = 1 ∧
    validate_query (pstr "SELECT 1; SELECT 2") = (true, []) := by
  decide

/-- C5 (code bug evidence): `sanitize_table_name` accepts the six-character
name consisting of `users` plus a trailing newline, although the strict
table-name rule (a letter or underscore, then alphanumeric or underscore
only, over the whole name) rejects it: Python `re.match` lets `$` also match
just before one trailing newline. -/
theorem sanitize_table_name_accepts_trailing_newline :
    sanitize_table_name (pstr "users\n") = (true, []) ∧
    specTableNamePattern (pstr "users\n") = false := by
  decide

/-- C10 counterexample: a name of 64 underscores consists only of
underscores yet is rejected by `sanitize_table_name` (length above 63), so
the claim quantified over all underscore-only names fails on it. -/
theorem underscores64_rejected_by_validator :
    (∀ c ∈ List.replicate 64 '_', c = '_') ∧
    (sanitize_table_name (List.replicate 64 '_')).1 = false := by
  decide

/-- C10 (amended): for every non-empty table name of at most 63 characters
consisting only of underscores, `sanitize_table_name` accepts, yet
`count_table_records` raises `ValueError("Invalid table name")` from its own
isalnum-based check before any database interaction, and the count_records
operation therefore returns an error result with no database events and
unchanged state; the inner check is strictly stronger than the validator on
this family. -/
theorem underscore_names_inner_check (name : PyStr) (st : DBState)
    (env : DBEnv) (max_retries : Nat)
    (h1 : name ≠ []) (h2 : ∀ c ∈ name, c = '_') (h3 : name.length ≤ 63) :
    sanitize_table_name name = (true, []) ∧
    count_table_records st env max_retries name =
      (.error (.valueError (pstr "Invalid table name")), st, []) ∧
    count_records_op st env max_retries ⟨none, none, some name⟩ =
      ([pstr "Failed to count records: Invalid table name"], st, []) := by
  have hsan : sanitize_table_name name = (true, []) := by
    obtain ⟨c, rest, rfl⟩ : ∃ c rest, name = c :: rest := by
      cases name with
      | nil => exact absurd rfl h1
      | cons c rest => exact ⟨c, rest, rfl⟩
    have hc : c = '_' := h2 c (by simp)
    subst hc
    have hrest : rest.dropWhile isWordChar = [] := by
      rw [List.dropWhile_eq_nil_iff]
      intro x hx
      have hx' : x = '_' := h2 x (by simp [hx])
      subst hx'
      decide
    simp only [List.length_cons] at h3
    simp [sanitize_table_name, pyMatchTableName, isWordStart, hrest]
    omega
  have hres : name.filter (fun c => decide (c ≠ '_')) = [] := by
    rw [List.filter_eq_nil_iff]
    intro a ha
    have := h2 a ha
    subst this
    decide
  have hcnt : count_table_records st env max_retries name =
      (.error (.valueError (pstr "Invalid table name")), st, []) := by
    simp only [count_table_records]
    rw [hres]
    simp
  refine ⟨hsan, hcnt, ?_⟩
  simp [count_records_op, hsan, hcnt]
  decide

/-- Witness for C10 (amended): the one-character name `_` is accepted by the
validator, rejected by the inner check, and yields the error result with no
database events. -/
theorem underscore_names_inner_check_witness :
    sanitize_table_name (pstr "_") = (true, []) ∧
    count_table_records st0 env0 3 (pstr "_") =
      (.error (.valueError (pstr "Invalid table name")), st0, []) ∧
    count_records_op st0 env0 3 ⟨none, none, some (pstr "_")⟩ =
      ([pstr "Failed to count records: Invalid table name"], st0, []) :=
  underscore_names_inner_check (pstr "_") st0 env0 3 (by decide) (by decide)
    (by decide)

/-- C4 counterexample: with configured max retries 3 and every attempt
failing, `get_secret` sleeps for 1 and 2 base units only (no sleep follows
the final failing attempt), not for 1, 2 and 4 as claimed. -/
theorem get_secret_sleep_schedule_counterexample :
    sleepsOf (get_secret none (fun _ => .error (pstr "AccessDenied")) 3).2.2 = [1, 2] ∧
    ([1, 2] : List Nat) ≠ [1, 2, 4] := by
  decide

/-- C4 (amended): when every attempt fails with configured max retries 3,
`get_secret` performs exactly three secrets calls with sleeps of 1 and 2
base units between them, fails with the `Failed to retrieve secret after 3
attempts` error carrying the last underlying cause, and caches no
credential value. -/
theorem get_secret_exhausts_retries (m : Nat → PyStr) :
    get_secret none (fun i => .error (m i)) 3 =
      (.error (.exception (pstr "Failed to retrieve secret after 3 attempts: " ++ m 2)),
       none,
       [Event.secretsCall, Event.sleep 1, Event.secretsCall, Event.sleep 2,
        Event.secretsCall]) := rfl

/-- C7: the clean-up in `execute_query` first strips surrounding whitespace
and then trailing semicolons; if the uppercased trimmed text does not
contain `LIMIT` it appends ` LIMIT <n>`, and if it does contain `LIMIT`
anywhere (including an existing clause with a higher literal) the text is
passed through unchanged apart from the trimming, with no re-capping. -/
theorem prepare_query_limit_policy (q : PyStr) (lim : Int) :
    (substrB (pstr "LIMIT") ((rstripSemi (pyStrip q)).map upChar) = true →
      prepareQuery q lim = rstripSemi (pyStrip q))
    ∧ (substrB (pstr "LIMIT") ((rstripSemi (pyStrip q)).map upChar) = false →
      prepareQuery q lim =
        rstripSemi (pyStrip q) ++ pstr " LIMIT " ++ (toString lim).data) := by
  constructor <;> intro h <;> simp [prepareQuery, h]

/-- Witness for C7: a query with its own higher LIMIT is only trimmed, and a
query without LIMIT gets the cap appended. -/
theorem prepare_query_limit_policy_witness :
    prepareQuery (pstr "  SELECT * FROM t LIMIT 9999;; ") 1000 =
      pstr "SELECT * FROM t LIMIT 9999" ∧
    prepareQuery (pstr "SELECT 1;") 1000 = pstr "SELECT 1 LIMIT 1000" :=
  ⟨((prepare_query_limit_policy (pstr "  SELECT * FROM t LIMIT 9999;; ") 1000).1
      (by decide)).trans (by decide),
   ((prepare_query_limit_policy (pstr "SELECT 1;") 1000).2
      (by decide)).trans (by decide)⟩

theorem execute_query_entry_event (st : DBState) (env : DBEnv) (mr : Nat)
    (q : PyStr) (params : Option (List Val)) (lim : Int) :
    ∃ rest, (execute_query st env mr q params lim).2.2 =
      Event.execQueryEntry q lim :: rest := by
  unfold execute_query
  split
  · dsimp only
    split <;> exact ⟨_, rfl⟩
  · exact ⟨_, rfl⟩
  · exact ⟨_, rfl⟩

/-- C3: when the query validates, `_execute_select` invokes query execution
with the effective row limit `min(caller limit or default 1000, configured
max rows)`; the head event of the trace records exactly that limit. -/
theorem execute_select_effective_limit (cfg : Config) (st : DBState)
    (env : DBEnv) (mr : Nat) (args : ToolArgs)
    (h : (validate_query (args.query.getD [])).1 = true) :
    ∃ rest, (execute_select_op cfg st env mr args).2.2 =
      Event.execQueryEntry (args.query.getD [])
        (min (args.limit.getD 1000) cfg.max_query_rows) :: rest := by
  simp only [execute_select_op]
  split
  · rename_i heq
    rw [heq] at h
    simp at h
  · obtain ⟨rest, hr⟩ := execute_query_entry_event st env mr (args.query.getD [])
      none (min (args.limit.getD 1000) cfg.max_query_rows)
    split <;> rename_i heq2 <;> rw [heq2] at hr <;> exact ⟨rest, hr⟩

/-- Witness for C3: with requested limit 5000 and configured max 1000, the
applied limit recorded at the database layer is 1000. -/
theorem execute_select_effective_limit_witness :
    ∃ rest, (execute_select_op ⟨1000⟩ st0 env0 3
        ⟨some (pstr "SELECT * FROM t"), some 5000, none⟩).2.2 =
      Event.execQueryEntry (pstr "SELECT * FROM t") 1000 :: rest :=
  execute_select_effective_limit ⟨1000⟩ st0 env0 3
    ⟨some (pstr "SELECT * FROM t"), some 5000, none⟩ (by decide)

/-- C8: when the table name fails validation, `_describe_table` and
`_count_records` return a result carrying the rejection reason and perform
no database interaction at all: the event trace is empty and the state is
unchanged. -/
theorem rejected_table_name_no_db (st : DBState) (env : DBEnv) (mr : Nat)
    (args : ToolArgs)
    (h : (sanitize_table_name (args.table_name.getD [])).1 = false) :
    describe_table_op st env mr args =
      ([pstr "Table name validation failed: " ++
          (sanitize_table_name (args.table_name.getD [])).2], st, []) ∧
    count_records_op st env mr args =
      ([pstr "Table name validation failed: " ++
          (sanitize_table_name (args.table_name.getD [])).2], st, []) := by
  constructor
  · simp only [describe_table_op]
    split
    · rename_i heq
      rw [heq]
    · rename_i heq
      rw [heq] at h
      simp at h
  · simp only [count_records_op]
    split
    · rename_i heq
      rw [heq]
    · rename_i heq
      rw [heq] at h
      simp at h

/-- Witness for C8: the digit-leading name `1bad` is rejected and both
operations return the reason with an empty event trace. -/
theorem rejected_table_name_no_db_witness :
    describe_table_op st0 env0 3 ⟨none, none, some (pstr "1bad")⟩ =
      ([pstr "Table name validation failed: Invalid table name format"], st0, []) ∧
    count_records_op st0 env0 3 ⟨none, none, some (pstr "1bad")⟩ =
      ([pstr "Table name validation failed: Invalid table name format"], st0, []) := by
  have h := rejected_table_name_no_db st0 env0 3 ⟨none, none, some (pstr "1bad")⟩
    (by decide)
  exact ⟨h.1.trans (by decide), h.2.trans (by decide)⟩

/-- C2: `handle_call_tool` always returns a result object: each of the four
recognized names dispatches to its (total) handler, an exception escaping
the dispatch is converted to an `Error:` text result, and an unrecognized
name yields the unknown-tool error result, never an unhandled fault. -/
theorem handle_call_tool_total (cfg : Config) (st : DBState) (env : DBEnv)
    (mr : Nat) (name : PyStr) (args : ToolArgs) :
    (∀ e, dispatch_tool cfg st env mr name args = .error e →
      handle_call_tool cfg st env mr name args =
        ([pstr "Error: " ++ excStr e], st, []))
    ∧ (name = pstr "execute_select" →
      handle_call_tool cfg st env mr name args = execute_select_op cfg st env mr args)
    ∧ (name = pstr "get_tables" →
      handle_call_tool cfg st env mr name args = get_tables_op st env mr args)
    ∧ (name = pstr "describe_table" →
      handle_call_tool cfg st env mr name args = describe_table_op st env mr args)
    ∧ (name = pstr "count_records" →
      handle_call_tool cfg st env mr name args = count_records_op st env mr args)
    ∧ (name ∉ [pstr "execute_select", pstr "get_tables", pstr "describe_table",
        pstr "count_records"] →
      handle_call_tool cfg st env mr name args =
        ([pstr "Error: Unknown tool: " ++ name], st, [])) := by
  refine ⟨?_, ?_, ?_, ?_, ?_, ?_⟩
  · intro e he
    simp [handle_call_tool, he]
  · intro h; subst h; rfl
  · intro h; subst h; rfl
  · intro h; subst h; rfl
  · intro h; subst h; rfl
  · intro hmem
    have h1 : ¬ (name = pstr "execute_select") := fun hh => hmem (by simp [hh])
    have h2 : ¬ (name = pstr "get_tables") := fun hh => hmem (by simp [hh])
    have h3 : ¬ (name = pstr "describe_table") := fun hh => hmem (by simp [hh])
    have h4 : ¬ (name = pstr "count_records") := fun hh => hmem (by simp [hh])
    have hd : dispatch_tool cfg st env mr name args =
        .error (.valueError (pstr "Unknown tool: " ++ name)) := by
      simp [dispatch_tool, h1, h2, h3, h4]
    have happ : pstr "Error: " ++ (pstr "Unknown tool: " ++ name) =
        pstr "Error: Unknown tool: " ++ name := by
      rw [← List.append_assoc]
      rfl
    simp [handle_call_tool, hd, excStr, happ]

/-- Witness for C2: an unrecognized operation name produces the unknown-tool
error result. -/
theorem handle_call_tool_total_witness :
    handle_call_tool ⟨1000⟩ st0 env0 3 (pstr "bogus_tool") args0 =
      ([pstr "Error: Unknown tool: bogus_tool"], st0, []) := by
  have h := (handle_call_tool_total ⟨1000⟩ st0 env0 3 (pstr "bogus_tool")
      args0).2.2.2.2.2 (by decide)
  exact h.trans (by decide)
